import Mathlib

/-
Verification development for the limit-buster copy-trade service.

The Rust sources are shallowly embedded below:
  * the webhook data model (`WebhookPayload` and its components) mirrors the
    serde-derived structs of src/main.rs;
  * `is_buy_transaction` and `extract_token_mint` are direct translations of
    the pure classifier and resolver functions;
  * `perform_copytrade_swap` is embedded as a pure function over an
    environment (`SwapEnv`) that supplies the results of the external
    aggregator / RPC / base64 / bincode calls, while a `SwapTrace` records
    which external calls were made;
  * `webhook_handler` is embedded over a `FileOps` environment describing the
    outcomes of the log-file system calls, threading the log-file contents
    (as a list of lines) through the events of a batch;
  * the JSON decoding performed by `serde_json::from_slice::<Vec<WebhookPayload>>`
    is embedded as total decoders over a `JsonV` value type (JSON numbers are
    modelled as rationals; objects are key/value lists as produced by the
    parser, so keys are treated as distinct);
  * the startup sequences of src/main.rs and monitor.rs are embedded as pure
    functions over the argument list and environment-variable map, returning
    the stdout trace together with either the constructed state or the fatal
    error.
-/

namespace LB

/-- JSON values as produced by the serde_json parser. Numbers are modelled as
rationals; an object is the parsed key/value list. -/
inductive JsonV where
  | null
  | bool (b : Bool)
  | num (q : ℚ)
  | str (s : String)
  | arr (elems : List JsonV)
  | obj (fields : List (String × JsonV))

/-- Field lookup on a parsed JSON object (first match; the parser produces
distinct keys). -/
def jsonLookup (kvs : List (String × JsonV)) (k : String) : Option JsonV :=
  (kvs.find? (fun kv => kv.1 == k)).map (fun kv => kv.2)

/-- Model of serde_json `Value` string indexing (`value["k"]`): `null` on a
missing key or a non-object. -/
def jsonIndex (j : JsonV) (k : String) : JsonV :=
  match j with
  | .obj kvs => (jsonLookup kvs k).getD JsonV.null
  | _ => JsonV.null

/-- Model of serde_json `Value::as_str`. -/
def JsonV.asStr : JsonV → Option String
  | .str s => some s
  | _ => none

/-- `UiTokenAmount` of src/main.rs; `uiAmount` is `Option<f64>`, modelled as an
optional rational (webhook amounts are finite JSON numbers). -/
structure UiTokenAmount where
  amount : String
  decimals : Nat
  ui_amount : Option ℚ
  ui_amount_string : String
deriving DecidableEq

/-- `TokenBalance` of src/main.rs. -/
structure TokenBalance where
  account_index : Nat
  mint : String
  owner : String
  program_id : String
  ui_token_amount : UiTokenAmount
deriving DecidableEq

/-- `Header` of src/main.rs. -/
structure Header where
  num_readonly_signed_accounts : Nat
  num_readonly_unsigned_accounts : Nat
  num_required_signatures : Nat
deriving DecidableEq

/-- `Instruction` of src/main.rs. -/
structure Instruction where
  program_id_index : Nat
  accounts : List Nat
  data : Option String
deriving DecidableEq

/-- `Message` of src/main.rs. -/
structure Message where
  account_keys : List String
  instructions : List Instruction
  address_table_lookups : Option JsonV
  header : Header
  recent_blockhash : String

/-- `LoadedAddresses` of src/main.rs. -/
structure LoadedAddresses where
  readonly : List String
  writable : List String
deriving DecidableEq

/-- `InnerInstruction` of src/main.rs. -/
structure InnerInstruction where
  index : Nat
  instructions : List Instruction
deriving DecidableEq

/-- `Meta` of src/main.rs. -/
structure Meta where
  err : Option JsonV
  fee : Option Nat
  inner_instructions : List InnerInstruction
  loaded_addresses : LoadedAddresses
  log_messages : List String
  post_balances : List Nat
  post_token_balances : List TokenBalance
  pre_balances : List Nat
  pre_token_balances : List TokenBalance
  rewards : List JsonV

/-- `TransactionData` of src/main.rs. -/
structure TransactionData where
  signatures : List String
  message : Message

/-- `WebhookPayload` of src/main.rs: one transaction event of the batch. -/
structure WebhookPayload where
  block_time : Option Nat
  index_within_block : Option Nat
  meta : Option Meta
  slot : Option Nat
  transaction : TransactionData

/-- First allow-listed swap program identifier (Jupiter v4). -/
def JUPITER_V4_ID : String := "JUP4Fb2cqiRUcaTHdrPC8h2gNsA2ETXiPDD33WcGuJB"

/-- Second allow-listed swap program identifier (Raydium AMM). -/
def RAYDIUM_AMM_ID : String := "675kPX9MHTjS2zt1qfr1NYHuzeLXfQM9H24wFSUt1Mp8"

/-- Resolution of an instruction's program identifier,
`account_keys.get(ix.program_id_index).unwrap_or(&default_key)` with
`default_key = String::new()`. -/
def resolveProgramId (msg : Message) (ix : Instruction) : String :=
  (msg.account_keys[ix.program_id_index]?).getD ""

/-- `is_buy_transaction` of src/main.rs (lines 223-231). -/
def is_buy_transaction (tx : WebhookPayload) : Bool :=
  tx.transaction.message.instructions.any fun ix =>
    let program_id := resolveProgramId tx.transaction.message ix
    program_id == JUPITER_V4_ID || program_id == RAYDIUM_AMM_ID

/-- The `ui_amount.unwrap_or(0.0)` read used by `extract_token_mint`. -/
def uiAmt (tb : TokenBalance) : ℚ :=
  tb.ui_token_amount.ui_amount.getD 0

/-- The `for token_balance in &meta.post_token_balances` loop of
`extract_token_mint`, with its early `return Some(mint)`. -/
def extractLoop (pre : List TokenBalance) : List TokenBalance → Option String
  | [] => none
  | tb :: rest =>
    if 0 < uiAmt tb then
      match pre.find? (fun p => p.mint == tb.mint) with
      | none => some tb.mint
      | some p => if uiAmt p = 0 then some tb.mint else extractLoop pre rest
    else extractLoop pre rest

/-- `extract_token_mint` of src/main.rs (lines 233-244). -/
def extract_token_mint (tx : WebhookPayload) : Option String :=
  tx.meta.bind fun m => extractLoop m.pre_token_balances m.post_token_balances

/-- The qualifying condition actually enforced by `extract_token_mint`: the
post entry has positive ui-amount and the FIRST pre entry with the same mint
(if any) has zero ui-amount. -/
def qualifiesImpl (pre : List TokenBalance) (tb : TokenBalance) : Bool :=
  decide (0 < uiAmt tb) &&
    match pre.find? (fun p => p.mint == tb.mint) with
    | none => true
    | some p => decide (uiAmt p = 0)

/-- Modelled from the spec: the buy-amount invariant as the spec states it
(spec section 3 and claim C2) — the post entry has positive ui-amount and its
mint either has no entry in the pre balances or has SOME pre entry with zero
ui-amount. -/
def qualifiesSpec (pre : List TokenBalance) (tb : TokenBalance) : Bool :=
  decide (0 < uiAmt tb) &&
    ((pre.all fun p => !(p.mint == tb.mint)) ||
     (pre.any fun p => p.mint == tb.mint && decide (uiAmt p = 0)))

/-- Modelled from the spec: `resolveAcquiredAsset` as worded by the spec and
claim C2, for comparison against `extract_token_mint`. -/
def extract_token_mint_spec (tx : WebhookPayload) : Option String :=
  tx.meta.bind fun m =>
    (m.post_token_balances.find? (qualifiesSpec m.pre_token_balances)).map
      (fun tb => tb.mint)

/-- The operator keypair; `pubkeyStr` is what `keypair.pubkey().to_string()`
returns. -/
structure KeypairM where
  bytes : List Nat
  pubkeyStr : String
deriving DecidableEq

/-- `MarketInfo` of src/main.rs. -/
structure MarketInfo where
  id : String
  label : String
deriving DecidableEq

/-- `JupiterRoute` of src/main.rs. -/
structure JupiterRoute where
  in_amount : String
  out_amount : String
  market_infos : List MarketInfo
deriving DecidableEq

/-- `JupiterQuoteResponse` of src/main.rs. -/
structure JupiterQuoteResponse where
  data : List JupiterRoute
deriving DecidableEq

/-- `JupiterSwapRequest` of src/main.rs. -/
structure JupiterSwapRequest where
  route : JupiterRoute
  user_public_key : String
  wrap_and_unwrap_sol : Bool
deriving DecidableEq

/-- The part of the bincode-decoded solana `Message` that src/main.rs touches. -/
structure MessageM where
  recent_blockhash : String
deriving DecidableEq

/-- A signature produced by `Transaction::sign`: the signing keypair over the
message (with its blockhash) it signed. -/
structure SigM where
  signer : KeypairM
  message : MessageM
deriving DecidableEq

/-- The part of the bincode-decoded solana `Transaction` that src/main.rs
touches. -/
structure TransactionM where
  signatures : List SigM
  message : MessageM
deriving DecidableEq

instance {ε α : Type} [DecidableEq ε] [DecidableEq α] : DecidableEq (Except ε α) := fun a b =>
  match a, b with
  | .error e, .error f =>
    if h : e = f then .isTrue (by rw [h]) else .isFalse (by intro hh; cases hh; exact h rfl)
  | .error _, .ok _ => .isFalse (by intro hh; cases hh)
  | .ok _, .error _ => .isFalse (by intro hh; cases hh)
  | .ok x, .ok y =>
    if h : x = y then .isTrue (by rw [h]) else .isFalse (by intro hh; cases hh; exact h rfl)

/-- Model of `Transaction::sign(&keypairs, recent_blockhash)`: store the given
blockhash into the message and attach one signature per given keypair. -/
def signTx (_tx : TransactionM) (kps : List KeypairM) (bh : String) : TransactionM :=
  let msg : MessageM := { recent_blockhash := bh }
  { signatures := kps.map (fun k => { signer := k, message := msg }),
    message := msg }

/-- `AppState` of src/main.rs (the RPC and HTTP handles live in the
environments below). -/
structure AppStateM where
  wallet : String
  keypair : KeypairM
  helius_api_key : String
deriving DecidableEq

/-- Outcomes of the external calls available to `perform_copytrade_swap`:
the aggregator quote call (GET + JSON decode), the aggregator build call
(POST + JSON decode), base64 decoding, bincode deserialization, and the RPC
submit-and-confirm call. An `error` value is a transport or decode failure of
that call. -/
structure SwapEnv where
  quote : Except String JupiterQuoteResponse
  build : JupiterSwapRequest → Except String JsonV
  decodeBase64 : String → Except String (List Nat)
  bincodeTx : List Nat → Except String TransactionM
  submit : TransactionM → Except String String

/-- The one signing step performed by `perform_copytrade_swap`: which keypairs
signed and over which blockhash. -/
structure SignCall where
  keypairs : List KeypairM
  blockhash : String
deriving DecidableEq

/-- Record of the external calls made during one `perform_copytrade_swap`
run. -/
structure SwapTrace where
  quoteUrl : String
  buildReq : Option JupiterSwapRequest
  b64Called : Bool
  signCall : Option SignCall
  submitted : Option TransactionM
deriving DecidableEq

/-- The aggregator quote URL built at lines 247-250. -/
def quoteUrlOf (token_mint : String) : String :=
  "https://quote-api.jup.ag/v4/quote?inputMint=So11111111111111111111111111111111111111112&outputMint="
    ++ token_mint ++ "&amount=1000000&slippage=0.5"

/-- `perform_copytrade_swap` of src/main.rs (lines 246-287), as a pure
function of the external-call environment; returns the function's result
together with the trace of external calls. -/
def perform_copytrade_swap (st : AppStateM) (env : SwapEnv) (token_mint : String) :
    Except String String × SwapTrace :=
  let quote_url := quoteUrlOf token_mint
  match env.quote with
  | .error e => (.error e, ⟨quote_url, none, false, none, none⟩)
  | .ok quote_response =>
    match quote_response.data with
    | [] => (.error "No swap route found", ⟨quote_url, none, false, none, none⟩)
    | route :: _ =>
      let swap_request : JupiterSwapRequest :=
        ⟨route, st.keypair.pubkeyStr, true⟩
      match env.build swap_request with
      | .error e => (.error e, ⟨quote_url, some swap_request, false, none, none⟩)
      | .ok swap_response =>
        match (jsonIndex swap_response "swapTransaction").asStr with
        | none =>
          (.error "No swap transaction returned",
           ⟨quote_url, some swap_request, false, none, none⟩)
        | some serialized_tx =>
          match env.decodeBase64 serialized_tx with
          | .error e => (.error e, ⟨quote_url, some swap_request, true, none, none⟩)
          | .ok decoded_tx =>
            match env.bincodeTx decoded_tx with
            | .error e => (.error e, ⟨quote_url, some swap_request, true, none, none⟩)
            | .ok tx =>
              let signed := signTx tx [st.keypair] tx.message.recent_blockhash
              let call : SignCall := ⟨[st.keypair], tx.message.recent_blockhash⟩
              match env.submit signed with
              | .error e =>
                (.error e, ⟨quote_url, some swap_request, true, some call, some signed⟩)
              | .ok s =>
                (.ok s, ⟨quote_url, some swap_request, true, some call, some signed⟩)

/-- Outcomes of the log-file system calls for one event: whether the
append-mode open succeeds, whether the fallback `File::create` succeeds, and
whether the write succeeds. -/
structure FileOps where
  appendOpenOk : Bool
  createOk : Bool
  writeOk : Bool
deriving DecidableEq

/-- Result of processing one decoded event: whether processing panicked, the
log-file contents afterwards (as lines), and — when the swap stage ran — its
result and external-call trace. -/
structure EventOutcome where
  panicked : Bool
  fileAfter : List String
  swap : Option (Except String String × SwapTrace)
deriving DecidableEq

/-- `tx.transaction.signatures.get(0).map(...).unwrap_or("unknown")`. -/
def txSig (tx : WebhookPayload) : String :=
  (tx.transaction.signatures.head?).getD "unknown"

/-- The log line written for a detected buy (the `format!` of line 189; the
`writeln!` of the message, which itself ends in a newline, additionally
produces an empty line after it). -/
def logLine (wallet sig : String) : String :=
  "Buy detected: Wallet " ++ wallet ++ " made a purchase - Tx: " ++ sig

/-- The mint-extraction plus swap stage of the buy branch (lines 205-212). -/
def runSwapStage (st : AppStateM) (senv : SwapEnv) (tx : WebhookPayload) :
    Option (Except String String × SwapTrace) :=
  match extract_token_mint tx with
  | some token_mint => some (perform_copytrade_swap st senv token_mint)
  | none => none

/-- The per-event body of `webhook_handler`'s loop (lines 184-216): classify;
on a buy, open the log file in append mode — falling back to `File::create`
(which truncates) and panicking via `.unwrap()` if that also fails — write the
log line, then resolve the mint and run the swap stage. -/
def processEvent (st : AppStateM) (ops : FileOps) (senv : SwapEnv)
    (prior : List String) (tx : WebhookPayload) : EventOutcome :=
  if is_buy_transaction tx then
    let line := logLine st.wallet (txSig tx)
    if ops.appendOpenOk then
      let after := if ops.writeOk then prior ++ [line, ""] else prior
      ⟨false, after, runSwapStage st senv tx⟩
    else if ops.createOk then
      let after := if ops.writeOk then [line, ""] else []
      ⟨false, after, runSwapStage st senv tx⟩
    else
      ⟨true, prior, none⟩
  else
    ⟨false, prior, none⟩

/-- Decode a JSON value as a JSON number (for `f64` fields). -/
def decodeQ : JsonV → Except String ℚ
  | .num q => .ok q
  | _ => .error "expected number"

/-- Decode a JSON value as an unsigned integer strictly below `bound`
(serde's `u8` / `u64` / `usize` deserialization). -/
def decodeNatLt (bound : Nat) : JsonV → Except String Nat
  | .num q =>
    if q.den = 1 ∧ 0 ≤ q.num ∧ q.num < (bound : ℤ) then .ok q.num.toNat
    else .error "integer out of range"
  | _ => .error "expected integer"

/-- Decode a JSON value as a string. -/
def decodeStr : JsonV → Except String String
  | .str s => .ok s
  | _ => .error "expected string"

/-- Decode each element of a list, failing on the first element failure. -/
def decodeListAux (dec : JsonV → Except String α) : List JsonV → Except String (List α)
  | [] => .ok []
  | j :: rest =>
    match dec j with
    | .error e => .error e
    | .ok a =>
      match decodeListAux dec rest with
      | .error e => .error e
      | .ok as => .ok (a :: as)

/-- Decode a JSON array elementwise (serde `Vec<T>` deserialization). -/
def decodeListWith (dec : JsonV → Except String α) : JsonV → Except String (List α)
  | .arr xs => decodeListAux dec xs
  | _ => .error "expected array"

/-- A required struct field: absent means failure. -/
def getReq (kvs : List (String × JsonV)) (k : String)
    (dec : JsonV → Except String α) : Except String α :=
  match jsonLookup kvs k with
  | none => .error ("missing field " ++ k)
  | some v => dec v

/-- An `Option<T>` struct field: absent or `null` means `none`. -/
def getOpt (kvs : List (String × JsonV)) (k : String)
    (dec : JsonV → Except String α) : Except String (Option α) :=
  match jsonLookup kvs k with
  | none => .ok none
  | some .null => .ok none
  | some v =>
    match dec v with
    | .error e => .error e
    | .ok a => .ok (some a)

/-- A `#[serde(default)]` struct field: absent means the default value. -/
def getWithD (kvs : List (String × JsonV)) (k : String) (dflt : α)
    (dec : JsonV → Except String α) : Except String α :=
  match jsonLookup kvs k with
  | none => .ok dflt
  | some v => dec v

/-- Decoder for `UiTokenAmount`. -/
def decodeUiTokenAmount (j : JsonV) : Except String UiTokenAmount :=
  match j with
  | .obj kvs => do
    let amount ← getReq kvs "amount" decodeStr
    let decimals ← getReq kvs "decimals" (decodeNatLt 256)
    let ui ← getOpt kvs "uiAmount" decodeQ
    let uis ← getReq kvs "uiAmountString" decodeStr
    .ok ⟨amount, decimals, ui, uis⟩
  | _ => .error "expected object"

/-- Decoder for `TokenBalance`. -/
def decodeTokenBalance (j : JsonV) : Except String TokenBalance :=
  match j with
  | .obj kvs => do
    let ai ← getReq kvs "accountIndex" (decodeNatLt (2 ^ 64))
    let mint ← getReq kvs "mint" decodeStr
    let owner ← getReq kvs "owner" decodeStr
    let pid ← getReq kvs "programId" decodeStr
    let uta ← getReq kvs "uiTokenAmount" decodeUiTokenAmount
    .ok ⟨ai, mint, owner, pid, uta⟩
  | _ => .error "expected object"

/-- Decoder for `Header`. -/
def decodeHeader (j : JsonV) : Except String Header :=
  match j with
  | .obj kvs => do
    let a ← getReq kvs "numReadonlySignedAccounts" (decodeNatLt 256)
    let b ← getReq kvs "numReadonlyUnsignedAccounts" (decodeNatLt 256)
    let c ← getReq kvs "numRequiredSignatures" (decodeNatLt 256)
    .ok ⟨a, b, c⟩
  | _ => .error "expected object"

/-- Decoder for `Instruction`. -/
def decodeInstruction (j : JsonV) : Except String Instruction :=
  match j with
  | .obj kvs => do
    let pii ← getReq kvs "programIdIndex" (decodeNatLt (2 ^ 64))
    let accounts ← getWithD kvs "accounts" [] (decodeListWith (decodeNatLt (2 ^ 64)))
    let dat ← getOpt kvs "data" decodeStr
    .ok ⟨pii, accounts, dat⟩
  | _ => .error "expected object"

/-- Decoder for `Message`. -/
def decodeMessage (j : JsonV) : Except String Message :=
  match j with
  | .obj kvs => do
    let ak ← getReq kvs "accountKeys" (decodeListWith decodeStr)
    let ixs ← getReq kvs "instructions" (decodeListWith decodeInstruction)
    let atl ← getOpt kvs "addressTableLookups" (fun v => .ok v)
    let hd ← getReq kvs "header" decodeHeader
    let rb ← getReq kvs "recentBlockhash" decodeStr
    .ok ⟨ak, ixs, atl, hd, rb⟩
  | _ => .error "expected object"

/-- Decoder for `InnerInstruction`. -/
def decodeInnerInstruction (j : JsonV) : Except String InnerInstruction :=
  match j with
  | .obj kvs => do
    let idx ← getReq kvs "index" (decodeNatLt (2 ^ 64))
    let ixs ← getReq kvs "instructions" (decodeListWith decodeInstruction)
    .ok ⟨idx, ixs⟩
  | _ => .error "expected object"

/-- Decoder for `LoadedAddresses`. -/
def decodeLoadedAddresses (j : JsonV) : Except String LoadedAddresses :=
  match j with
  | .obj kvs => do
    let ro ← getWithD kvs "readonly" [] (decodeListWith decodeStr)
    let wr ← getWithD kvs "writable" [] (decodeListWith decodeStr)
    .ok ⟨ro, wr⟩
  | _ => .error "expected object"

/-- Decoder for `Meta` (every field optional or defaulted). -/
def decodeMeta (j : JsonV) : Except String Meta :=
  match j with
  | .obj kvs => do
    let err ← getOpt kvs "err" (fun v => .ok v)
    let fee ← getOpt kvs "fee" (decodeNatLt (2 ^ 64))
    let inner ← getWithD kvs "innerInstructions" [] (decodeListWith decodeInnerInstruction)
    let la ← getWithD kvs "loadedAddresses" ⟨[], []⟩ decodeLoadedAddresses
    let logs ← getWithD kvs "logMessages" [] (decodeListWith decodeStr)
    let postB ← getWithD kvs "postBalances" [] (decodeListWith (decodeNatLt (2 ^ 64)))
    let postTB ← getWithD kvs "postTokenBalances" [] (decodeListWith decodeTokenBalance)
    let preB ← getWithD kvs "preBalances" [] (decodeListWith (decodeNatLt (2 ^ 64)))
    let preTB ← getWithD kvs "preTokenBalances" [] (decodeListWith decodeTokenBalance)
    let rw ← getWithD kvs "rewards" [] (decodeListWith (fun v => .ok v))
    .ok ⟨err, fee, inner, la, logs, postB, postTB, preB, preTB, rw⟩
  | _ => .error "expected object"

/-- Decoder for `TransactionData`. -/
def decodeTransactionData (j : JsonV) : Except String TransactionData :=
  match j with
  | .obj kvs => do
    let sigs ← getReq kvs "signatures" (decodeListWith decodeStr)
    let msg ← getReq kvs "message" decodeMessage
    .ok ⟨sigs, msg⟩
  | _ => .error "expected object"

/-- Decoder for `WebhookPayload`: the `transaction` field is mandatory, the
others optional. -/
def decodeWebhookPayload (j : JsonV) : Except String WebhookPayload :=
  match j with
  | .obj kvs =>
    match jsonLookup kvs "transaction" with
    | none => .error "missing field transaction"
    | some tv =>
      match decodeTransactionData tv with
      | .error e => .error e
      | .ok t => do
        let bt ← getOpt kvs "blockTime" (decodeNatLt (2 ^ 64))
        let iwb ← getOpt kvs "indexWithinBlock" (decodeNatLt (2 ^ 64))
        let m ← getOpt kvs "meta" decodeMeta
        let slot ← getOpt kvs "slot" (decodeNatLt (2 ^ 64))
        .ok ⟨bt, iwb, m, slot, t⟩
  | _ => .error "event is not an object"

/-- Decode the entries of a batch, failing on the first entry failure. -/
def decodeBatchList : List JsonV → Except String (List WebhookPayload)
  | [] => .ok []
  | j :: rest =>
    match decodeWebhookPayload j with
    | .error e => .error e
    | .ok p =>
      match decodeBatchList rest with
      | .error e => .error e
      | .ok ps => .ok (p :: ps)

/-- `serde_json::from_slice::<Vec<WebhookPayload>>`: decode the parsed body as
a batch of events; any entry failure fails the whole batch. -/
def decodeBatch : JsonV → Except String (List WebhookPayload)
  | .arr items => decodeBatchList items
  | _ => .error "expected an array of events"

/-- Result of one `webhook_handler` invocation: the HTTP status returned
(`none` when the handler panicked and produced no response), the outcomes of
the events processed, the log-file contents afterwards, and the logged
deserialization failure, if any. -/
structure HandlerOutcome where
  status : Option Nat
  processed : List EventOutcome
  fileAfter : List String
  decodeFailMsg : Option String
deriving DecidableEq

/-- The handler's `for tx in &payload` loop: events are processed in order,
threading the log file; a panic aborts the loop (and the response). The
per-event environments are indexed by position in the batch. -/
def runEvents (st : AppStateM) (ops : Nat → FileOps) (senv : Nat → SwapEnv) :
    Nat → List String → List WebhookPayload → List EventOutcome × List String × Bool
  | _, file, [] => ([], file, false)
  | i, file, tx :: rest =>
    let o := processEvent st (ops i) (senv i) file tx
    if o.panicked then ([o], o.fileAfter, true)
    else
      let r := runEvents st ops senv (i + 1) o.fileAfter rest
      (o :: r.1, r.2.1, r.2.2)

/-- `webhook_handler` of src/main.rs (lines 177-221): decode the batch; on
failure log it and still answer 200; on success process every event in order;
answer 200 unless an event panicked. -/
def webhook_handler (st : AppStateM) (ops : Nat → FileOps) (senv : Nat → SwapEnv)
    (file0 : List String) (body : JsonV) : HandlerOutcome :=
  match decodeBatch body with
  | .error e => ⟨some 200, [], file0, some ("Deserialization failed: " ++ e)⟩
  | .ok payload =>
    let r := runEvents st ops senv 0 file0 payload
    ⟨if r.2.2 then none else some 200, r.1, r.2.1, none⟩

/-- Whitespace as skipped by the JSON parser. -/
def isWs (c : Char) : Bool :=
  c == ' ' || c == '\n' || c == '\t' || c == '\r'

/-- Trim surrounding whitespace from a character list. -/
def trimWs (cs : List Char) : List Char :=
  ((cs.dropWhile isWs).reverse.dropWhile isWs).reverse

/-- Split a character list at commas. -/
def splitCommas (cs : List Char) : List (List Char) :=
  cs.foldr
    (fun c acc =>
      if c == ',' then [] :: acc
      else
        match acc with
        | g :: gs => (c :: g) :: gs
        | [] => [[c]])
    [[]]

/-- Value of a list of decimal digits. -/
def digitsToNat (cs : List Char) : Nat :=
  cs.foldl (fun a c => a * 10 + (c.toNat - 48)) 0

/-- One array element of the secret key: a decimal integer with no leading
zero, optionally surrounded by whitespace, whose value fits in a `u8`. -/
def parseSkByte (g : List Char) : Option Nat :=
  let t := trimWs g
  if t ≠ [] ∧ t.all Char.isDigit ∧ (t.length = 1 ∨ t.headD '0' ≠ '0')
      ∧ digitsToNat t < 256 then
    some (digitsToNat t)
  else none

/-- Model of `serde_json::from_str::<Vec<u8>>` applied to the SECRET_KEY
environment value: a JSON array of byte-sized integers. -/
def parseSecretKey (s : String) : Option (List Nat) :=
  let t := trimWs s.toList
  match t with
  | '[' :: rest =>
    if rest.getLast? = some ']' then
      let inner := trimWs (rest.dropLast)
      if inner = [] then some []
      else
        let pieces := (splitCommas inner).map parseSkByte
        if pieces.all Option.isSome then some (pieces.map (fun p => p.getD 0))
        else none
    else none
  | _ => none

/-- The base58 alphabet (bitcoin variant used by solana). -/
def base58Chars : List Char :=
  "123456789ABCDEFGHJKLMNPQRSTUVWXYZabcdefghijkmnopqrstuvwxyz".toList

/-- Digit value of a base58 character. -/
def b58Val (c : Char) : Option Nat :=
  base58Chars.findIdx? (fun x => x == c)

/-- Big-endian digit representation of `n` in the given base (no leading
zeros), driven by a fuel argument so that the recursion is structural; the
digits are rendered through `digit`. -/
def natDigitsBEAux (base : Nat) (digit : Nat → α) : Nat → Nat → List α
  | 0, _ => []
  | fuel + 1, n =>
    if n = 0 then []
    else natDigitsBEAux base digit fuel (n / base) ++ [digit (n % base)]

/-- Big-endian byte representation of a natural number (no leading zeros);
`n` itself is always enough fuel. -/
def natToBytesBE (n : Nat) : List Nat :=
  natDigitsBEAux 256 id n n

/-- Base58 digit characters of a natural number (no leading zeros). -/
def natToB58 (n : Nat) : List Char :=
  natDigitsBEAux 58 (fun d => base58Chars.getD d '1') n n

/-- Base58 encoding of a byte list (leading zero bytes become leading 1s). -/
def base58Encode (bytes : List Nat) : String :=
  let zeros := (bytes.takeWhile (fun b => b == 0)).length
  let n := bytes.foldl (fun a b => a * 256 + b) 0
  String.mk (List.replicate zeros '1' ++ natToB58 n)

/-- Model of the external SDK's `Pubkey::from_str` used by monitor.rs: base58
decoding (length-capped input) that must yield exactly 32 bytes. -/
def pubkeyFromStr (s : String) : Option (List Nat) :=
  let cs := s.toList
  if cs.length ≤ 44 ∧ cs.all (fun c => (b58Val c).isSome) then
    let zeros := (cs.takeWhile (fun c => c == '1')).length
    let n := cs.foldl (fun acc c => acc * 58 + ((b58Val c).getD 0)) 0
    let bytes := List.replicate zeros 0 ++ natToBytesBE n
    if bytes.length = 32 then some bytes else none
  else none

/-- Model of `Keypair::from_bytes`: requires the 64-byte secret+public layout
(validity of the byte contents beyond the length is abstracted); the derived
public key string is what `pubkey().to_string()` returns. -/
def keypairFromBytes (bytes : List Nat) : Option KeypairM :=
  if bytes.length = 64 then some ⟨bytes, base58Encode (bytes.drop 32)⟩
  else none

/-- The stdout line printed at src/main.rs line 329, echoing the raw
SECRET_KEY value. -/
def secretKeyEcho (v : String) : String :=
  "SECRET_KEY read from env: " ++ v

/-- Result of running a startup sequence: the stdout lines printed, and either
the constructed state or the fatal error (a diagnostic followed by a non-zero
process exit). -/
structure StartupOutcome where
  trace : List String
  result : Except String AppStateM
deriving DecidableEq

/-- Startup sequence of src/main.rs `main` (lines 311-350), as a pure function
of the argument list, the environment-variable map and the dotenv outcome.
The model ends with the construction of `AppState`; only stdout lines are
traced (diagnostics go to stderr). -/
def mainStartup (args : List String) (env : String → Option String)
    (dotenvOk : Bool) : StartupOutcome :=
  if args.length ≠ 2 then ⟨[], .error "Please provide a wallet address"⟩
  else
    let wallet := args.getD 1 ""
    let t0 := if dotenvOk then ["Loaded .env file"] else []
    match env "SECRET_KEY" with
    | none => ⟨t0, .error "SECRET_KEY not found in environment"⟩
    | some sk =>
      let t1 := t0 ++ [secretKeyEcho sk]
      match parseSecretKey sk with
      | none => ⟨t1, .error "Error parsing SECRET_KEY as JSON"⟩
      | some secret_key =>
        match env "HELIUS_API_KEY" with
        | none => ⟨t1, .error "HELIUS_API_KEY not found in environment"⟩
        | some helius_api_key =>
          match keypairFromBytes secret_key with
          | none => ⟨t1, .error "invalid keypair bytes"⟩
          | some keypair => ⟨t1, .ok ⟨wallet, keypair, helius_api_key⟩⟩

/-- Startup sequence of monitor.rs `main` (lines 10-23): argument count check,
then `Pubkey::from_str` on the wallet argument; on success the monitor enters
its polling loop with the parsed wallet. -/
def monitorStartup (args : List String) : Except String (List Nat) :=
  if args.length ≠ 2 then .error "Please provide a wallet address"
  else
    match pubkeyFromStr (args.getD 1 "") with
    | none => .error "invalid wallet address"
    | some pk => .ok pk

/-- Point update of an environment-variable map. -/
def updEnv (env : String → Option String) (k v : String) : String → Option String :=
  fun x => if x = k then some v else env x

/-- A token-balance entry with the given mint and ui-amount. -/
def tbMk (mint : String) (amt : Option ℚ) : TokenBalance :=
  ⟨0, mint, "own", "prog", ⟨"raw", 0, amt, "rawstr"⟩⟩

/-- An empty message body. -/
def msgEmpty : Message := ⟨[], [], none, ⟨0, 0, 0⟩, "BH"⟩

/-- Meta whose post balances hold one positive MINTX entry while the pre
balances hold two MINTX entries: first positive, second zero. -/
def cexMeta : Meta :=
  ⟨none, none, [], ⟨[], []⟩, [], [], [tbMk "MINTX" (some 1)], [],
   [tbMk "MINTX" (some 1), tbMk "MINTX" (some 0)], []⟩

/-- Event exercising the duplicate-mint pre-balance case. -/
def cexTx : WebhookPayload := ⟨none, none, some cexMeta, none, ⟨["SIGX"], msgEmpty⟩⟩

/-- JSON form of a minimal buy event (one instruction addressed to the
Jupiter program). -/
def buyEvJson : JsonV :=
  .obj [("transaction", .obj [
    ("signatures", .arr [.str "SIG1"]),
    ("message", .obj [
      ("accountKeys", .arr [.str JUPITER_V4_ID]),
      ("instructions", .arr [.obj [("programIdIndex", .num 0)]]),
      ("header", .obj [("numReadonlySignedAccounts", .num 0),
                       ("numReadonlyUnsignedAccounts", .num 0),
                       ("numRequiredSignatures", .num 1)]),
      ("recentBlockhash", .str "BH1")])])]

/-- The decoded form of `buyEvJson`. -/
def buyEv : WebhookPayload :=
  ⟨none, none, none, none,
   ⟨["SIG1"], ⟨[JUPITER_V4_ID], [⟨0, [], none⟩], none, ⟨0, 0, 1⟩, "BH1"⟩⟩⟩

/-- An event whose single instruction resolves to a non-allow-listed key. -/
def nonBuyEv : WebhookPayload :=
  ⟨none, none, none, none,
   ⟨["SIGN1"], ⟨["SomeOtherProgram"], [⟨0, [], none⟩], none, ⟨0, 0, 1⟩, "BH2"⟩⟩⟩

/-- A concrete application state. -/
def stFix : AppStateM := ⟨"WALLET1", ⟨List.replicate 64 0, "PUB1"⟩, "HK"⟩

/-- External-call environment in which every network call fails. -/
def senvNoNet : SwapEnv :=
  ⟨.error "transport", fun _ => .error "transport", fun _ => .error "b64",
   fun _ => .error "bincode", fun _ => .error "rpc"⟩

/-- File-operation outcomes where everything succeeds. -/
def opsAllOk : FileOps := ⟨true, true, true⟩

/-- A concrete aggregator route. -/
def route0 : JupiterRoute := ⟨"1000000", "5", [⟨"m1", "Orca"⟩]⟩

/-- A build response carrying a string `swapTransaction` field. -/
def respWithTx : JsonV := .obj [("swapTransaction", .str "QUJD")]

/-- A build response lacking the `swapTransaction` field. -/
def respNoTx : JsonV := .obj [("foo", .str "x")]

/-- A concrete decoded transaction with an embedded blockhash. -/
def tx0 : TransactionM := ⟨[], ⟨"BH123"⟩⟩

/-- Environment in which the full swap pipeline succeeds. -/
def senvFull : SwapEnv :=
  ⟨.ok ⟨[route0]⟩, fun _ => .ok respWithTx, fun _ => .ok [65, 66, 67],
   fun _ => .ok tx0, fun _ => .ok "SIGOK"⟩

/-- Environment in which the quote call returns zero routes. -/
def senvEmptyRoutes : SwapEnv :=
  ⟨.ok ⟨[]⟩, fun _ => .ok respWithTx, fun _ => .ok [65, 66, 67],
   fun _ => .ok tx0, fun _ => .ok "SIGOK"⟩

/-- Environment in which the build response lacks the transaction field. -/
def senvNoTxField : SwapEnv :=
  ⟨.ok ⟨[route0]⟩, fun _ => .ok respNoTx, fun _ => .ok [65, 66, 67],
   fun _ => .ok tx0, fun _ => .ok "SIGOK"⟩

/-- A SECRET_KEY environment value: a JSON array of 64 zero bytes. -/
def sk64Str : String :=
  "[0,0,0,0,0,0,0,0,0,0,0,0,0,0,0,0,0,0,0,0,0,0,0,0,0,0,0,0,0,0,0,0,0,0,0,0,0,0,0,0,0,0,0,0,0,0,0,0,0,0,0,0,0,0,0,0,0,0,0,0,0,0,0,0]"

/-- An environment-variable map holding both required secrets. -/
def envFix : String → Option String :=
  fun k => if k = "SECRET_KEY" then some sk64Str
           else if k = "HELIUS_API_KEY" then some "HKEY" else none

/-- A wallet argument that is not valid base58. -/
def badWalletStr : String := "0O0O"

/-- A batch entry (JSON object) lacking the `transaction` field. -/
def noTxEntryJson : JsonV := .obj [("foo", .null)]

theorem extractLoop_eq_find (pre post : List TokenBalance) :
    extractLoop pre post =
      (post.find? (qualifiesImpl pre)).map (fun tb => tb.mint) := by
  induction post with
  | nil => rfl
  | cons tb rest ih =>
    by_cases hpos : 0 < uiAmt tb
    · cases hf : pre.find? (fun p => p.mint == tb.mint) with
      | none =>
        have hq : qualifiesImpl pre tb = true := by
          simp [qualifiesImpl, hpos, hf]
        rw [List.find?_cons_of_pos _ hq]
        simp [extractLoop, hpos, hf]
      | some p =>
        by_cases hz : uiAmt p = 0
        · have hq : qualifiesImpl pre tb = true := by
            simp [qualifiesImpl, hpos, hf, hz]
          rw [List.find?_cons_of_pos _ hq]
          simp [extractLoop, hpos, hf, hz]
        · have hq : qualifiesImpl pre tb = false := by
            simp [qualifiesImpl, hpos, hf, hz]
          rw [List.find?_cons_of_neg _ (by simp [hq])]
          rw [← ih]
          simp [extractLoop, hpos, hf, hz]
    · have hq : qualifiesImpl pre tb = false := by
        simp [qualifiesImpl, hpos]
      rw [List.find?_cons_of_neg _ (by simp [hq])]
      rw [← ih]
      simp [extractLoop, hpos]

/-- C1: the buy classifier returns true iff some top-level instruction's
program identifier, resolved as `accountKeys[program_id_index]`, equals one of
the two allow-listed swap-program identifiers; an out-of-range index resolves
to the empty placeholder identifier; and when the classifier returns false the
event's pipeline stops after classification: no log write, no swap stage, and
hence no network calls. -/
theorem c1_buy_classifier (st : AppStateM) (ops : FileOps) (senv : SwapEnv)
    (prior : List String) (tx : WebhookPayload) :
    (is_buy_transaction tx = true ↔
      ∃ ix ∈ tx.transaction.message.instructions,
        resolveProgramId tx.transaction.message ix = JUPITER_V4_ID ∨
        resolveProgramId tx.transaction.message ix = RAYDIUM_AMM_ID)
    ∧ (∀ ix : Instruction,
        tx.transaction.message.account_keys.length ≤ ix.program_id_index →
        resolveProgramId tx.transaction.message ix = "")
    ∧ (is_buy_transaction tx = false →
        processEvent st ops senv prior tx = ⟨false, prior, none⟩) := by
  refine ⟨?_, ?_, ?_⟩
  · simp [is_buy_transaction, List.any_eq_true]
  · intro ix h
    simp [resolveProgramId, List.getElem?_eq_none h]
  · intro h
    simp [processEvent, h]

/-- Witness for C1 at a concrete non-buy event. -/
theorem c1_buy_classifier_witness :
    is_buy_transaction nonBuyEv = false ∧
    processEvent stFix opsAllOk senvNoNet [] nonBuyEv = ⟨false, [], none⟩ :=
  ⟨by decide,
   (c1_buy_classifier stFix opsAllOk senvNoNet [] nonBuyEv).2.2 (by decide)⟩

/-- C2 counterexample: with post balances `[MINTX: 1]` and pre balances
`[MINTX: 1, MINTX: 0]`, the first post entry has positive ui-amount and its
mint HAS a pre entry with zero ui-amount, so the claim requires `some MINTX`;
the code inspects only the first matching pre entry (ui-amount 1) and returns
`none`. -/
theorem c2_resolver_counterexample :
    extract_token_mint cexTx = none ∧
    extract_token_mint_spec cexTx = some "MINTX" ∧
    qualifiesSpec cexMeta.pre_token_balances (tbMk "MINTX" (some 1)) = true :=
  ⟨by decide, by decide, by decide⟩

/-- C2 amended: the resolver returns `none` when meta is absent, and otherwise
the mint of the first post-balance entry with positive ui-amount whose mint
either has no entry in the pre balances or whose FIRST matching pre entry has
zero ui-amount (first-match-wins); `none` when no entry qualifies. -/
theorem c2_resolver_amended (tx : WebhookPayload) :
    extract_token_mint tx =
      tx.meta.bind (fun m =>
        (m.post_token_balances.find? (qualifiesImpl m.pre_token_balances)).map
          (fun tb => tb.mint)) := by
  cases h : tx.meta with
  | none => simp [extract_token_mint, h]
  | some m => simp [extract_token_mint, h, extractLoop_eq_find]

/-- C3 (code bug): when a buy event is processed while the append-mode open of
the log file fails and the fallback `File::create` also fails, the
`.unwrap()` at line 199 panics: the handler produces no 200 response and the
remaining events of the batch are never processed. -/
theorem c3_handler_panics_on_log_failure :
    (processEvent stFix ⟨false, false, true⟩ senvNoNet [] buyEv).panicked = true
    ∧ (webhook_handler stFix (fun _ => ⟨false, false, true⟩) (fun _ => senvNoNet) []
        (JsonV.arr [buyEvJson, buyEvJson])).status = none
    ∧ (webhook_handler stFix (fun _ => ⟨false, false, true⟩) (fun _ => senvNoNet) []
        (JsonV.arr [buyEvJson, buyEvJson])).processed.length = 1 :=
  ⟨by decide, by decide, by decide⟩

/-- C4: whenever the pipeline reaches the signing step, it signs with exactly
the operator keypair, over the recent blockhash already embedded in the
bincode-decoded transaction's own message (no blockhash is fetched), and the
resulting transaction carries exactly one signature. -/
theorem c4_sign_embedded_blockhash (st : AppStateM) (env : SwapEnv) (mint : String)
    (r : JupiterRoute) (rs : List JupiterRoute) (resp : JsonV) (ser : String)
    (bytes : List Nat) (tx : TransactionM)
    (h1 : env.quote = .ok ⟨r :: rs⟩)
    (h2 : env.build ⟨r, st.keypair.pubkeyStr, true⟩ = .ok resp)
    (h3 : (jsonIndex resp "swapTransaction").asStr = some ser)
    (h4 : env.decodeBase64 ser = .ok bytes)
    (h5 : env.bincodeTx bytes = .ok tx) :
    (perform_copytrade_swap st env mint).2.signCall =
      some ⟨[st.keypair], tx.message.recent_blockhash⟩
    ∧ (perform_copytrade_swap st env mint).2.submitted =
      some (signTx tx [st.keypair] tx.message.recent_blockhash)
    ∧ (signTx tx [st.keypair] tx.message.recent_blockhash).signatures =
      [⟨st.keypair, ⟨tx.message.recent_blockhash⟩⟩]
    ∧ (signTx tx [st.keypair] tx.message.recent_blockhash).signatures.length = 1 := by
  have htr : (perform_copytrade_swap st env mint).2 =
      ⟨quoteUrlOf mint, some ⟨r, st.keypair.pubkeyStr, true⟩, true,
       some ⟨[st.keypair], tx.message.recent_blockhash⟩,
       some (signTx tx [st.keypair] tx.message.recent_blockhash)⟩ := by
    simp only [perform_copytrade_swap, h1, h2, h3, h4, h5]
    cases hsub : env.submit (signTx tx [st.keypair] tx.message.recent_blockhash) <;>
      simp [hsub]
  exact ⟨by rw [htr], by rw [htr], by simp [signTx], by simp [signTx]⟩

/-- Witness for C4 at a concrete fully-successful environment. -/
theorem c4_sign_embedded_blockhash_witness :
    (perform_copytrade_swap stFix senvFull "MINTX").2.signCall =
      some ⟨[stFix.keypair], tx0.message.recent_blockhash⟩
    ∧ (perform_copytrade_swap stFix senvFull "MINTX").2.submitted =
      some (signTx tx0 [stFix.keypair] tx0.message.recent_blockhash)
    ∧ (signTx tx0 [stFix.keypair] tx0.message.recent_blockhash).signatures =
      [⟨stFix.keypair, ⟨tx0.message.recent_blockhash⟩⟩]
    ∧ (signTx tx0 [stFix.keypair] tx0.message.recent_blockhash).signatures.length = 1 :=
  c4_sign_embedded_blockhash stFix senvFull "MINTX" route0 [] respWithTx "QUJD"
    [65, 66, 67] tx0 rfl rfl rfl rfl rfl

/-- C5: an empty route list from the quote call fails the pipeline with the
no-route error, making no build, base64-decode, sign or submit call; and when
routes exist, the first route of the list is the one submitted to the build
call. -/
theorem c5_no_route (st : AppStateM) (env : SwapEnv) (mint : String) :
    (env.quote = .ok ⟨[]⟩ →
      perform_copytrade_swap st env mint =
        (.error "No swap route found", ⟨quoteUrlOf mint, none, false, none, none⟩))
    ∧ (∀ r rs, env.quote = .ok ⟨r :: rs⟩ →
        (perform_copytrade_swap st env mint).2.buildReq =
          some ⟨r, st.keypair.pubkeyStr, true⟩) := by
  constructor
  · intro h
    simp [perform_copytrade_swap, h]
  · intro r rs h
    simp only [perform_copytrade_swap, h]
    cases hb : env.build ⟨r, st.keypair.pubkeyStr, true⟩ with
    | error e => simp [hb]
    | ok resp =>
      cases hs : (jsonIndex resp "swapTransaction").asStr with
      | none => simp [hb, hs]
      | some ser =>
        cases hd : env.decodeBase64 ser with
        | error e => simp [hb, hs, hd]
        | ok bytes =>
          cases hx : env.bincodeTx bytes with
          | error e => simp [hb, hs, hd, hx]
          | ok tx =>
            cases hsub :
                env.submit (signTx tx [st.keypair] tx.message.recent_blockhash) <;>
              simp [hb, hs, hd, hx, hsub]

/-- Witness for C5 at a concrete empty-route environment. -/
theorem c5_no_route_witness :
    perform_copytrade_swap stFix senvEmptyRoutes "MINTX" =
      (.error "No swap route found",
       ⟨quoteUrlOf "MINTX", none, false, none, none⟩) :=
  (c5_no_route stFix senvEmptyRoutes "MINTX").1 rfl

/-- C6: when the build response lacks a string `swapTransaction` field, the
pipeline fails with the missing-transaction error without base64-decoding,
signing or submitting anything. -/
theorem c6_missing_swap_transaction (st : AppStateM) (env : SwapEnv) (mint : String)
    (r : JupiterRoute) (rs : List JupiterRoute) (resp : JsonV)
    (h1 : env.quote = .ok ⟨r :: rs⟩)
    (h2 : env.build ⟨r, st.keypair.pubkeyStr, true⟩ = .ok resp)
    (h3 : (jsonIndex resp "swapTransaction").asStr = none) :
    perform_copytrade_swap st env mint =
      (.error "No swap transaction returned",
       ⟨quoteUrlOf mint, some ⟨r, st.keypair.pubkeyStr, true⟩, false, none, none⟩) := by
  simp [perform_copytrade_swap, h1, h2, h3]

/-- Witness for C6 at a concrete environment whose build response lacks the
field. -/
theorem c6_missing_swap_transaction_witness :
    perform_copytrade_swap stFix senvNoTxField "MINTX" =
      (.error "No swap transaction returned",
       ⟨quoteUrlOf "MINTX", some ⟨route0, stFix.keypair.pubkeyStr, true⟩,
        false, none, none⟩) :=
  c6_missing_swap_transaction stFix senvNoTxField "MINTX" route0 [] respNoTx
    rfl rfl rfl

theorem decodeWebhookPayload_missing_transaction (kvs : List (String × JsonV))
    (h : jsonLookup kvs "transaction" = none) :
    decodeWebhookPayload (.obj kvs) = .error "missing field transaction" := by
  simp [decodeWebhookPayload, h]

theorem decodeWebhookPayload_ok_transaction {j : JsonV} {p : WebhookPayload}
    (h : decodeWebhookPayload j = .ok p) :
    ∃ kvs v, j = .obj kvs ∧ jsonLookup kvs "transaction" = some v := by
  cases j with
  | obj kvs =>
    cases hl : jsonLookup kvs "transaction" with
    | none => simp [decodeWebhookPayload, hl] at h
    | some v => exact ⟨kvs, v, rfl, hl⟩
  | null => simp [decodeWebhookPayload] at h
  | bool b => simp [decodeWebhookPayload] at h
  | num q => simp [decodeWebhookPayload] at h
  | str s => simp [decodeWebhookPayload] at h
  | arr xs => simp [decodeWebhookPayload] at h

theorem decodeBatchList_fails {items : List JsonV} {i : Nat} {j : JsonV} {e : String}
    (hget : items[i]? = some j) (hfail : decodeWebhookPayload j = .error e) :
    ∃ e', decodeBatchList items = .error e' := by
  induction items generalizing i with
  | nil => simp at hget
  | cons a rest ih =>
    cases i with
    | zero =>
      simp at hget
      subst hget
      exact ⟨e, by simp [decodeBatchList, hfail]⟩
    | succ n =>
      simp at hget
      cases ha : decodeWebhookPayload a with
      | error e2 => exact ⟨e2, by simp [decodeBatchList, ha]⟩
      | ok p =>
        obtain ⟨e', he'⟩ := ih hget
        exact ⟨e', by simp [decodeBatchList, ha, he']⟩

theorem decodeBatchList_ok_mem {items : List JsonV} {evs : List WebhookPayload}
    (h : decodeBatchList items = .ok evs) :
    ∀ j ∈ items, ∃ p, decodeWebhookPayload j = .ok p := by
  induction items generalizing evs with
  | nil =>
    intro j hj
    simp at hj
  | cons a rest ih =>
    intro j hj
    cases ha : decodeWebhookPayload a with
    | error e => simp [decodeBatchList, ha] at h
    | ok p =>
      cases hr : decodeBatchList rest with
      | error e => simp [decodeBatchList, ha, hr] at h
      | ok ps =>
        rcases List.mem_cons.mp hj with rfl | hj2
        · exact ⟨p, ha⟩
        · exact ih hr j hj2

/-- C7: a batch entry that is an object lacking the `transaction` field fails
the decode of the entire batch; a successfully decoded batch consists only of
objects carrying a `transaction` field; and on any decode failure the handler
logs the failure, processes no events, and still answers 200. -/
theorem c7_batch_decode (st : AppStateM) (ops : Nat → FileOps) (senv : Nat → SwapEnv)
    (file0 : List String) (body : JsonV) :
    (∀ (items : List JsonV) (i : Nat) (kvs : List (String × JsonV)),
      body = .arr items → items[i]? = some (JsonV.obj kvs) →
      jsonLookup kvs "transaction" = none → ∃ e, decodeBatch body = .error e)
    ∧ (∀ evs, decodeBatch body = .ok evs →
        ∃ items, body = .arr items ∧
          ∀ j ∈ items, ∃ kvs v, j = .obj kvs ∧ jsonLookup kvs "transaction" = some v)
    ∧ (∀ e, decodeBatch body = .error e →
        webhook_handler st ops senv file0 body =
          ⟨some 200, [], file0, some ("Deserialization failed: " ++ e)⟩) := by
  refine ⟨?_, ?_, ?_⟩
  · intro items i kvs hb hget hmiss
    subst hb
    obtain ⟨e', he'⟩ :=
      decodeBatchList_fails hget (decodeWebhookPayload_missing_transaction kvs hmiss)
    exact ⟨e', by simp [decodeBatch, he']⟩
  · intro evs hok
    cases body with
    | arr items =>
      refine ⟨items, rfl, ?_⟩
      intro j hj
      obtain ⟨p, hp⟩ :=
        decodeBatchList_ok_mem (by simpa [decodeBatch] using hok) j hj
      exact decodeWebhookPayload_ok_transaction hp
    | null => simp [decodeBatch] at hok
    | bool b => simp [decodeBatch] at hok
    | num q => simp [decodeBatch] at hok
    | str s => simp [decodeBatch] at hok
    | obj kvs => simp [decodeBatch] at hok
  · intro e he
    simp [webhook_handler, he]

/-- Witness for C7 at a concrete one-entry batch lacking the field. -/
theorem c7_batch_decode_witness :
    (∃ e, decodeBatch (JsonV.arr [noTxEntryJson]) = .error e)
    ∧ webhook_handler stFix (fun _ => opsAllOk) (fun _ => senvNoNet) []
        (JsonV.arr [noTxEntryJson]) =
      ⟨some 200, [], [],
       some ("Deserialization failed: " ++ "missing field transaction")⟩ :=
  ⟨(c7_batch_decode stFix (fun _ => opsAllOk) (fun _ => senvNoNet) []
      (JsonV.arr [noTxEntryJson])).1 [noTxEntryJson] 0 [("foo", .null)] rfl rfl rfl,
   (c7_batch_decode stFix (fun _ => opsAllOk) (fun _ => senvNoNet) []
      (JsonV.arr [noTxEntryJson])).2.2 "missing field transaction" rfl⟩

/-- C9 counterexample: with existing log content, a detected buy processed
while the append-mode open fails but the fallback `File::create` succeeds
truncates the log: the prior content is gone afterwards. -/
theorem c9_truncation_counterexample :
    (processEvent stFix ⟨false, true, true⟩ senvNoNet ["old entry"] buyEv).fileAfter =
      [logLine "WALLET1" "SIG1", ""]
    ∧ "old entry" ∉
      (processEvent stFix ⟨false, true, true⟩ senvNoNet ["old entry"] buyEv).fileAfter :=
  ⟨by decide, by decide⟩

/-- C9 amended: for every detected buy event the handler writes exactly one
log line holding the operator wallet and the event's first transaction
signature (plus the empty terminator line `writeln` produces); on the normal
path (append-mode open succeeds) this line is appended and the prior content
is preserved, but when the append-mode open fails the fallback `File::create`
truncates the file before the line is written. -/
theorem c9_log_append_amended (st : AppStateM) (ops : FileOps) (senv : SwapEnv)
    (prior : List String) (tx : WebhookPayload)
    (hbuy : is_buy_transaction tx = true) :
    (ops.appendOpenOk = true → ops.writeOk = true →
      (processEvent st ops senv prior tx).fileAfter =
        prior ++ [logLine st.wallet (txSig tx), ""])
    ∧ (ops.appendOpenOk = true → ops.writeOk = false →
      (processEvent st ops senv prior tx).fileAfter = prior)
    ∧ (ops.appendOpenOk = false → ops.createOk = true → ops.writeOk = true →
      (processEvent st ops senv prior tx).fileAfter =
        [logLine st.wallet (txSig tx), ""])
    ∧ logLine st.wallet (txSig tx) =
        "Buy detected: Wallet " ++ st.wallet ++ " made a purchase - Tx: " ++ txSig tx := by
  refine ⟨?_, ?_, ?_, rfl⟩
  · intro h1 h2
    simp [processEvent, hbuy, h1, h2]
  · intro h1 h2
    simp [processEvent, hbuy, h1, h2]
  · intro h1 h2 h3
    simp [processEvent, hbuy, h1, h2, h3]

/-- Witness for C9 at a concrete buy event with all file operations
succeeding. -/
theorem c9_log_append_amended_witness :
    is_buy_transaction buyEv = true ∧
    (processEvent stFix opsAllOk senvNoNet ["old"] buyEv).fileAfter =
      ["old"] ++ [logLine stFix.wallet (txSig buyEv), ""] :=
  ⟨by decide,
   (c9_log_append_amended stFix opsAllOk senvNoNet ["old"] buyEv (by decide)).1 rfl rfl⟩

/-- C8 counterexample: with both secrets present, the webhook service's
startup succeeds even though the wallet argument is not a valid public-key
string — main.rs never validates the wallet, so a malformed wallet address
does not terminate that process. -/
theorem c8_startup_counterexample :
    (mainStartup ["prog", badWalletStr] envFix true).result.isOk = true
    ∧ pubkeyFromStr badWalletStr = none :=
  ⟨by decide, by decide⟩

/-- C8 amended: in the webhook service (main.rs) the fatal-at-startup errors
are exactly a wrong argument count, a missing or unparsable SECRET_KEY, and a
missing HELIUS_API_KEY — the wallet argument is accepted unvalidated; in the
monitor binary (monitor.rs) they are exactly a wrong argument count and a
wallet argument that fails public-key parsing. Each failure is a diagnostic
followed by a non-zero process exit. -/
theorem c8_startup_fatal_characterization (args : List String)
    (env : String → Option String) (d : Bool) :
    ((∃ st, (mainStartup args env d).result = .ok st) ↔
      (args.length = 2 ∧ ∃ sk bs, env "SECRET_KEY" = some sk ∧
        parseSecretKey sk = some bs ∧ (∃ hk, env "HELIUS_API_KEY" = some hk) ∧
        ∃ kp, keypairFromBytes bs = some kp))
    ∧ (∀ margs : List String, (∃ pk, monitorStartup margs = .ok pk) ↔
        (margs.length = 2 ∧ ∃ pk, pubkeyFromStr (margs.getD 1 "") = some pk)) := by
  constructor
  · by_cases ha : args.length = 2
    · cases hsk : env "SECRET_KEY" with
      | none => simp [mainStartup, ha, hsk]
      | some sk =>
        cases hp : parseSecretKey sk with
        | none => simp [mainStartup, ha, hsk, hp]
        | some bs =>
          cases hh : env "HELIUS_API_KEY" with
          | none => simp [mainStartup, ha, hsk, hp, hh]
          | some hk =>
            cases hkp : keypairFromBytes bs with
            | none => simp [mainStartup, ha, hsk, hp, hh, hkp]
            | some kp => simp [mainStartup, ha, hsk, hp, hh, hkp]
    · simp [mainStartup, ha]
  · intro margs
    by_cases hm : margs.length = 2
    · have hm' : ¬margs.length ≠ 2 := by omega
      cases hpk : pubkeyFromStr (margs.getD 1 "") with
      | none =>
        simp only [monitorStartup, if_neg hm']
        rw [hpk]
        simp [hm, hpk]
      | some pk =>
        simp only [monitorStartup, if_neg hm']
        rw [hpk]
        simp [hm, hpk]
    · simp [monitorStartup, hm]

/-- Witness for C8 at concrete startups that succeed in both binaries. -/
theorem c8_startup_witness :
    (∃ st, (mainStartup ["prog", "W1"] envFix true).result = .ok st)
    ∧ (∃ pk, monitorStartup ["monitor", "11111111111111111111111111111111"] = .ok pk) :=
  ⟨((c8_startup_fatal_characterization ["prog", "W1"] envFix true).1).mpr
      ⟨by decide, sk64Str, List.replicate 64 0, by decide, by decide,
       ⟨"HKEY", by decide⟩,
       ⟨⟨List.replicate 64 0, String.mk (List.replicate 32 '1')⟩, by decide⟩⟩,
   ((c8_startup_fatal_characterization ["prog", "W1"] envFix true).2
      ["monitor", "11111111111111111111111111111111"]).mpr
      ⟨by decide, ⟨List.replicate 32 0, by decide⟩⟩⟩

theorem string_append_right_inj : ∀ p a b : String, p ++ a = p ++ b → a = b
  | ⟨pd⟩, ⟨ad⟩, ⟨bd⟩, h => by
    have h2 : pd ++ ad = pd ++ bd := congrArg String.data h
    exact congrArg String.mk (List.append_cancel_left h2)

/-- C10 (implicit): after reading SECRET_KEY and before parsing it, startup
prints the raw secret-key material verbatim to stdout, so two runs that
differ only in the SECRET_KEY value produce different stdout traces. -/
theorem c10_secret_key_leak (args : List String) (env : String → Option String)
    (d : Bool) (s1 s2 : String) (hargs : args.length = 2) (hne : s1 ≠ s2) :
    secretKeyEcho s1 ∈ (mainStartup args (updEnv env "SECRET_KEY" s1) d).trace
    ∧ (mainStartup args (updEnv env "SECRET_KEY" s1) d).trace ≠
      (mainStartup args (updEnv env "SECRET_KEY" s2) d).trace := by
  have h2 : ¬args.length ≠ 2 := by omega
  have htr : ∀ s, (mainStartup args (updEnv env "SECRET_KEY" s) d).trace =
      (if d then ["Loaded .env file"] else []) ++ [secretKeyEcho s] := by
    intro s
    have henv : updEnv env "SECRET_KEY" s "SECRET_KEY" = some s := by
      simp [updEnv]
    simp only [mainStartup, if_neg h2, henv]
    cases hp : parseSecretKey s with
    | none => simp [hp]
    | some bs =>
      cases hh : updEnv env "SECRET_KEY" s "HELIUS_API_KEY" with
      | none => simp [hp, hh]
      | some hk =>
        cases hkp : keypairFromBytes bs with
        | none => simp [hp, hh, hkp]
        | some kp => simp [hp, hh, hkp]
  refine ⟨by rw [htr s1]; simp, ?_⟩
  intro heq
  rw [htr s1, htr s2] at heq
  have h3 := List.append_cancel_left heq
  have h4 : secretKeyEcho s1 = secretKeyEcho s2 := by
    simpa using h3
  exact hne (string_append_right_inj "SECRET_KEY read from env: " s1 s2 h4)

/-- Witness for C10 at concrete differing secrets. -/
theorem c10_secret_key_leak_witness :
    secretKeyEcho "AAA" ∈
      (mainStartup ["p", "w"] (updEnv envFix "SECRET_KEY" "AAA") true).trace
    ∧ (mainStartup ["p", "w"] (updEnv envFix "SECRET_KEY" "AAA") true).trace ≠
      (mainStartup ["p", "w"] (updEnv envFix "SECRET_KEY" "BBB") true).trace :=
  c10_secret_key_leak ["p", "w"] envFix true "AAA" "BBB" (by decide) (by decide)

end LB
